import Mathlib

/-!
Verification of the Auto-Rename-Bot pattern-extraction / template-substitution
engine and its orchestration pipeline, embedded shallowly from
`src/plugins/file_rename.py` and `src/helper/database.py`.

Text is modelled as `List Char` (ASCII; the inputs appearing in the spec and
the regexes in the source are ASCII-only, so Python's Unicode case folding,
`\w`, `\d`, `\s` coincide with their ASCII restrictions on every input
considered here).

Python regular-expression `search` is embedded per pattern: `search` scans
candidate start positions left to right and returns the match at the first
position where the whole pattern can match; within a position, greedy
repetition and ordered alternation are resolved exactly as Python's
backtracking engine does.  For each concrete pattern below the backtracking
is finite and is unrolled into a deterministic matcher; comments on each
matcher justify the unrolling against the pattern's source text.

IMPORTANT FINDING about the source: the list literal `SEASON_EPISODE_PATTERNS`
(src/plugins/file_rename.py lines 31-39) is not syntactically valid Python:
each of the five entries on lines 32-36 opens a parenthesis that is never
closed (`ast.parse` reports "closing parenthesis ']' does not match opening
parenthesis '(' on line 36"), so the module fails to import at all.  The
minimal repair (closing each stray parenthesis) leaves a list whose first
five entries are compiled patterns and whose last two entries are tuples
`(pattern, (None, 'episode'))`; the loop in `extract_season_episode` does
`pattern.search(text)` on every entry, so reaching entry 6 calls `.search`
on a tuple and raises `AttributeError`.  The embedding
`extract_season_episode` below models exactly this repaired semantics:
patterns 1-5 are tried in order; if none matches, the call raises
(`Except.error PyErr.attributeError`).
-/

/-- Python exception outcomes that the embedded code can raise. -/
inductive PyErr where
  | attributeError
  deriving DecidableEq

/-- ASCII decimal digit, the ASCII restriction of Python regex `\d`. -/
def isDigitChar (c : Char) : Bool := '0' ≤ c && c ≤ '9'

/-- ASCII whitespace, the ASCII restriction of Python regex `\s`. -/
def isSpaceChar (c : Char) : Bool :=
  c = ' ' || c = '\t' || c = '\n' || c = '\x0b' || c = '\x0c' || c = '\r'

/-- ASCII word character, the ASCII restriction of Python regex `\w`
(used for the `\b` word-boundary assertion). -/
def isWordChar (c : Char) : Bool :=
  ('a' ≤ c && c ≤ 'z') || ('A' ≤ c && c ≤ 'Z') || ('0' ≤ c && c ≤ '9') || c = '_'

/-- Character of the class `[\s-]` (pattern 2 of `SEASON_EPISODE_PATTERNS`,
and the `[-\s]?` of the audio patterns). -/
def isSpaceDash (c : Char) : Bool := isSpaceChar c || c = '-'

/-- Case-insensitive ASCII character comparison (`re.IGNORECASE`). -/
def ciEq (a b : Char) : Bool :=
  (if 'A' ≤ a && a ≤ 'Z' then a.toNat + 32 else a.toNat) =
  (if 'A' ≤ b && b ≤ 'Z' then b.toNat + 32 else b.toNat)

/-- Greedy `(\d+)` / `\d*`: the maximal leading digit run and the rest. -/
def takeDigits (s : List Char) : List Char × List Char :=
  (s.takeWhile isDigitChar, s.dropWhile isDigitChar)

/-- Match a literal case-sensitively at the head, returning the rest. -/
def stripLit : List Char → List Char → Option (List Char)
  | [], s => some s
  | _ :: _, [] => none
  | p :: ps, c :: cs => if p = c then stripLit ps cs else none

/-- Match a literal case-insensitively at the head, returning the rest
(`re.IGNORECASE` literal matching). -/
def stripLitCI : List Char → List Char → Option (List Char)
  | [], s => some s
  | _ :: _, [] => none
  | p :: ps, c :: cs => if ciEq p c then stripLitCI ps cs else none

/-- `re.search` scaffold: try the single-position matcher `m` at every
start position left to right, returning the first success (the leftmost
match), like Python's `pattern.search`. -/
def searchPat (m : List Char → Option α) : List Char → Option α
  | [] => m []
  | c :: t =>
    match m (c :: t) with
    | some r => some r
    | none => searchPat m (t)

/-- Pattern 1, `S(\d+)(?:E|EP)(\d+)` tail: the ordered alternation
`(?:E|EP)` followed by `(\d+)`.  Python tries branch `E` first; if the
following `(\d+)` finds no digit it backtracks to branch `EP`. -/
def matchEEPdigits : List Char → Option (List Char)
  | 'E' :: r2 =>
    let d := (takeDigits r2).1
    if d ≠ [] then some d
    else
      match r2 with
      | 'P' :: r4 =>
        let d2 := (takeDigits r4).1
        if d2 ≠ [] then some d2 else none
      | _ => none
  | _ => none

/-- `S(\d+)(?:E|EP)(\d+)` at one position (case-sensitive).  The greedy
`(\d+)` never backtracks: a shorter digit run would leave a digit where
`E` is required. -/
def matchP1At : List Char → Option (List Char × List Char)
  | 'S' :: rest =>
    let (d1, r1) := takeDigits rest
    if d1 = [] then none
    else (matchEEPdigits r1).map (fun e => (d1, e))
  | _ => none

/-- `S(\d+)[\s-]*(?:E|EP)(\d+)` at one position (case-sensitive).  Both
`(\d+)` and `[\s-]*` are exact under maximal munch: `[\s-]` cannot consume
a digit and `E` is neither a digit nor in `[\s-]`. -/
def matchP2At : List Char → Option (List Char × List Char)
  | 'S' :: rest =>
    let (d1, r1) := takeDigits rest
    if d1 = [] then none
    else (matchEEPdigits (r1.dropWhile isSpaceDash)).map (fun e => (d1, e))
  | _ => none

/-- `Season\s*(\d+)\s*Episode\s*(\d+)` at one position, `re.IGNORECASE`.
Each `\s*` is exact under maximal munch (the following token is a digit or
a letter, never whitespace). -/
def matchP3At (s : List Char) : Option (List Char × List Char) := do
  let r1 ← stripLitCI "Season".toList s
  let (d1, r3) := takeDigits (r1.dropWhile isSpaceChar)
  if d1 = [] then none
  else do
    let r5 ← stripLitCI "Episode".toList (r3.dropWhile isSpaceChar)
    let (d2, _) := takeDigits (r5.dropWhile isSpaceChar)
    if d2 = [] then none else some (d1, d2)

/-- `\[S(\d+)\]\[E(\d+)\]` at one position (case-sensitive). -/
def matchP4At : List Char → Option (List Char × List Char)
  | '[' :: 'S' :: rest =>
    let (d1, r1) := takeDigits rest
    if d1 = [] then none
    else
      match r1 with
      | ']' :: '[' :: 'E' :: r2 =>
        let (d2, r3) := takeDigits r2
        if d2 = [] then none
        else
          match r3 with
          | ']' :: _ => some (d1, d2)
          | _ => none
      | _ => none
  | _ => none

/-- `S(\d+)[^\d]*(\d+)` at one position (case-sensitive).  Backtracking
analysis: with the maximal first digit run `d1`, `[^\d]*` maximally munches
to the next digit; if a digit follows, that is Python's match.  Otherwise
(no digit anywhere after the run) Python backtracks the greedy first
`(\d+)` by one: `[^\d]*` then matches zero characters and the second
`(\d+)` takes the last digit of the run — possible only when the run has
at least two digits. -/
def matchP5At : List Char → Option (List Char × List Char)
  | 'S' :: rest =>
    let (d1, r1) := takeDigits rest
    if d1 = [] then none
    else
      let (d2, _) := takeDigits (r1.dropWhile (fun c => !isDigitChar c))
      if d2 ≠ [] then some (d1, d2)
      else
        match d1.reverse with
        | l :: i :: is => some (((i :: is)).reverse, [l])
        | _ => none
  | _ => none

/-- One branch of pattern 6: a literal (CI) then `\s*` then `(\d+)`. -/
def matchLitSpDigits (lit : List Char) (s : List Char) : Option (List Char) :=
  (stripLitCI lit s).bind (fun r =>
    let d := (takeDigits (r.dropWhile isSpaceChar)).1
    if d = [] then none else some d)

/-- `(?:E|EP|Episode)\s*(\d+)` at one position, `re.IGNORECASE`: the
alternation is tried in source order `E`, `EP`, `Episode`. -/
def matchP6At (s : List Char) : Option (List Char) :=
  (matchLitSpDigits "E".toList s).orElse (fun _ =>
    (matchLitSpDigits "EP".toList s).orElse (fun _ =>
      matchLitSpDigits "Episode".toList s))

/-- `\b` holds before the current position given the previous character. -/
def boundaryBefore (prev : Option Char) : Bool :=
  match prev with
  | none => true
  | some p => !isWordChar p

/-- `\b(\d+)\b` searched left to right, carrying the previous character for
the `\b` assertion: the leftmost maximal digit run that is preceded by
start-of-text or a non-word character and followed by end-of-text or a
non-word character. -/
def searchP7 (prev : Option Char) : List Char → Option (List Char)
  | [] => none
  | c :: t =>
    if boundaryBefore prev && isDigitChar c then
      let (d, r) := takeDigits (c :: t)
      match r with
      | [] => some d
      | x :: _ => if !isWordChar x then some d else searchP7 (some c) t
    else searchP7 (some c) t

/-- Embeds `extract_season_episode` (src/plugins/file_rename.py lines
64-75) over the minimally repaired `SEASON_EPISODE_PATTERNS` (lines 31-39;
see the module comment about the unbalanced parentheses).  Patterns 1-5
each have two capture groups, so a match returns
`(groups[0], groups[1])`; entries 6 and 7 of the repaired list are tuples,
not compiled patterns, and `pattern.search` on them raises
`AttributeError`. -/
def extract_season_episode (text : List Char) :
    Except PyErr (Option (List Char) × Option (List Char)) :=
  match searchPat matchP1At text with
  | some (s, e) => .ok (some s, some e)
  | none =>
  match searchPat matchP2At text with
  | some (s, e) => .ok (some s, some e)
  | none =>
  match searchPat matchP3At text with
  | some (s, e) => .ok (some s, some e)
  | none =>
  match searchPat matchP4At text with
  | some (s, e) => .ok (some s, some e)
  | none =>
  match searchPat matchP5At text with
  | some (s, e) => .ok (some s, some e)
  | none => .error .attributeError

/-- A `p`/`i` suffix character of `\d{3,4}[pi]` under `re.IGNORECASE`. -/
def isPIChar (c : Char) : Bool := c = 'p' || c = 'P' || c = 'i' || c = 'I'

/-- `\b(\d{3,4}[pi])\b` at one position given the previous character
(`re.IGNORECASE`).  Backtracking analysis: `\d{3,4}` greedily tries 4 then
3 digits; if the maximal digit run at this position has length other than
3 or 4, both attempts leave a digit where `[pi]` or the trailing `\b` is
required, so the position fails; when the run has length exactly 3 or 4 the
`[pi]` and trailing `\b` checks are on the characters after the run. -/
def matchQ1At (prev : Option Char) (s : List Char) : Option (List Char) :=
  if boundaryBefore prev then
    let (d, r) := takeDigits s
    if d.length = 3 || d.length = 4 then
      match r with
      | x :: r2 =>
        if isPIChar x then
          match r2 with
          | [] => some (d ++ [x])
          | y :: _ => if !isWordChar y then some (d ++ [x]) else none
        else none
      | [] => none
    else none
  else none

/-- Try a case-insensitive literal at one position with `\b` on both sides,
returning the actual matched characters (what `m.group(1)` yields). -/
def matchWordLitCIAt (lit : List Char) (prev : Option Char) (s : List Char) :
    Option (List Char) :=
  if boundaryBefore prev then
    match stripLitCI lit s with
    | some r =>
      match r with
      | [] => some (s.take lit.length)
      | y :: _ => if !isWordChar y then some (s.take lit.length) else none
    | none => none
  else none

/-- Search scaffold for matchers that need the previous character for a
leading `\b`: try every start position left to right. -/
def searchPatB (m : Option Char → List Char → Option α) :
    Option Char → List Char → Option α
  | prev, [] => m prev []
  | prev, c :: t =>
    match m prev (c :: t) with
    | some r => some r
    | none => searchPatB m (some c) t

/-- Ordered case-insensitive word-bounded alternation
(`\b(lit1|lit2|...)\b` with `re.IGNORECASE`) at one position, returning the
actual matched text. -/
def matchWordAltCIAt (lits : List (List Char)) (prev : Option Char)
    (s : List Char) : Option (List Char) :=
  match lits with
  | [] => none
  | l :: ls =>
    match matchWordLitCIAt l prev s with
    | some r => some r
    | none => matchWordAltCIAt ls prev s

/-- `\[(\d{3,4}[pi])\]` at one position (`re.IGNORECASE` affects only
`[pi]`).  Same `\d{3,4}` backtracking analysis as `matchQ1At`, with literal
brackets instead of `\b`. -/
def matchQ6At (s : List Char) : Option (List Char) :=
  match s with
  | '[' :: rest =>
    let (d, r) := takeDigits rest
    if d.length = 3 || d.length = 4 then
      match r with
      | x :: ']' :: _ => if isPIChar x then some (d ++ [x]) else none
      | _ => none
    else none
  | _ => none

/-- Embeds `extract_quality` (src/plugins/file_rename.py lines 77-86) over
`QUALITY_PATTERNS` (lines 42-49): ordered list, first pattern whose search
succeeds wins; each entry's extractor is applied to the match; returns
"Unknown" when nothing matches. -/
def extract_quality (text : List Char) : List Char :=
  match searchPatB matchQ1At none text with
  | some q => q
  | none =>
  match searchPatB (matchWordAltCIAt ["4k".toList, "2160p".toList]) none text with
  | some _ => "4k".toList
  | none =>
  match searchPatB (matchWordAltCIAt ["2k".toList, "1440p".toList]) none text with
  | some _ => "2k".toList
  | none =>
  match searchPatB (matchWordAltCIAt ["HDRip".toList, "HDTV".toList]) none text with
  | some q => q
  | none =>
  match searchPatB (matchWordAltCIAt ["4kX264".toList, "4kx265".toList]) none text with
  | some q => q
  | none =>
  match searchPat matchQ6At text with
  | some q => q
  | none => "Unknown".toList

/-- Trailing `\b` after a just-matched word character: holds at end of text
or before a non-word character. -/
def trailingB (r : List Char) : Bool :=
  match r with
  | [] => true
  | y :: _ => !isWordChar y

/-- Greedy optional single character of class `cls` (`[-\s]?`, `[- ]?`):
try the continuation after consuming one class character first, then
without consuming. -/
def optClassThen (cls : Char → Bool) (k : List Char → Option α)
    (s : List Char) : Option α :=
  match s with
  | c :: t => if cls c then (k t).orElse (fun _ => k s) else k s
  | [] => k []

/-- `\b(Multi|Dual)[-\s]?Audio\b` at one position (`re.IGNORECASE`); the
extractor is the constant "Multi", so only success matters.  The branch
first letters `M`/`D` are distinct, so trying `Dual` only when `Multi`
fails to strip is exact. -/
def matchA1At (prev : Option Char) (s : List Char) : Option Unit :=
  if boundaryBefore prev then
    ((stripLitCI "Multi".toList s).orElse (fun _ => stripLitCI "Dual".toList s)).bind
      (optClassThen isSpaceDash (fun r2 =>
        (stripLitCI "Audio".toList r2).bind (fun r3 =>
          if trailingB r3 then some () else none)))
  else none

/-- `\b(Dual)[-\s]?(Audio|Track)\b` at one position (`re.IGNORECASE`);
constant extractor "Dual". -/
def matchA2At (prev : Option Char) (s : List Char) : Option Unit :=
  if boundaryBefore prev then
    (stripLitCI "Dual".toList s).bind
      (optClassThen isSpaceDash (fun r2 =>
        ((stripLitCI "Audio".toList r2).orElse (fun _ =>
            stripLitCI "Track".toList r2)).bind (fun r3 =>
          if trailingB r3 then some () else none)))
  else none

/-- `\b(lit(tail)?)\b` at one position (`re.IGNORECASE`), as in
`\b(Sub(bed)?)\b`: greedy optional `tail` first, then the bare literal.
Constant extractor, so only success matters. -/
def matchOptTailAt (lit tail : List Char) (prev : Option Char)
    (s : List Char) : Option Unit :=
  if boundaryBefore prev then
    (stripLitCI lit s).bind (fun r =>
      match stripLitCI tail r with
      | some r2 =>
        if trailingB r2 then some ()
        else if trailingB r then some () else none
      | none => if trailingB r then some () else none)
  else none

/-- `\[(Sub|Dub)\]` / `\((Sub|Dub)\)` at one position (case-sensitive;
these two audio patterns have no `re.IGNORECASE`), returning the f-string
result `group + "bed"`. -/
def matchBracketSubDubAt (openC closeC : Char) (s : List Char) :
    Option (List Char) :=
  match s with
  | c :: rest =>
    if c = openC then
      match stripLit "Sub".toList rest with
      | some (x :: _) => if x = closeC then some "Subbed".toList else none
      | _ =>
        match stripLit "Dub".toList rest with
        | some (x :: _) => if x = closeC then some "Dubbed".toList else none
        | _ => none
    else none
  | [] => none

/-- The `\s*/\s*(Jap|Kor|Chi)\b` tail of the audio pattern 7; the branch
first letters are distinct.  Each `\s*` is exact under maximal munch. -/
def matchA7Tail (r : List Char) : Option Unit :=
  match r.dropWhile isSpaceChar with
  | '/' :: r3 =>
    let r4 := r3.dropWhile isSpaceChar
    (((stripLitCI "Jap".toList r4).bind (fun x =>
        if trailingB x then some () else none)).orElse (fun _ =>
      ((stripLitCI "Kor".toList r4).bind (fun x =>
        if trailingB x then some () else none)).orElse (fun _ =>
      (stripLitCI "Chi".toList r4).bind (fun x =>
        if trailingB x then some () else none))))
  | _ => none

/-- `\b(Eng(lish)?\s*/\s*(Jap|Kor|Chi))\b` at one position
(`re.IGNORECASE`); constant extractor "Dual".  Greedy `(lish)?`: the
with-`lish` continuation is tried first. -/
def matchA7At (prev : Option Char) (s : List Char) : Option Unit :=
  if boundaryBefore prev then
    (stripLitCI "Eng".toList s).bind (fun r =>
      ((stripLitCI "lish".toList r).bind matchA7Tail).orElse (fun _ =>
        matchA7Tail r))
  else none

/-- `\b(TrueHD|DTS[- ]?HD|Atmos)\b` at one position (case-sensitive, no
`re.IGNORECASE` on this pattern), returning the actual matched text
(`m.group(1)`).  Branch first letters `T`/`D`/`A` are distinct. -/
def matchA8At (prev : Option Char) (s : List Char) : Option (List Char) :=
  if boundaryBefore prev then
    match stripLit "TrueHD".toList s with
    | some r => if trailingB r then some "TrueHD".toList else none
    | none =>
    match stripLit "DTS".toList s with
    | some r =>
      (optClassThen (fun c => c = '-' || c = ' ')
        (fun r2 => (stripLit "HD".toList r2).bind (fun r3 =>
          if trailingB r3 then
            some ("DTS".toList ++ (r.take (r.length - r2.length)) ++ "HD".toList)
          else none)) r)
    | none =>
    match stripLit "Atmos".toList s with
    | some r => if trailingB r then some "Atmos".toList else none
    | none => none
  else none

/-- `\[(Unknown)\]` at one position (case-sensitive), extractor
`m.group(1)` = "Unknown". -/
def matchA9At (s : List Char) : Option (List Char) :=
  match s with
  | '[' :: rest =>
    match stripLit "Unknown".toList rest with
    | some (']' :: _) => some "Unknown".toList
    | _ => none
  | _ => none

/-- Embeds `extract_audio_info` (src/plugins/file_rename.py lines 88-97)
over `AUDIO_PATTERNS` (lines 52-62): ordered list, first pattern whose
search succeeds wins; returns `None` (here `none`) when nothing
matches. -/
def extract_audio_info (text : List Char) : Option (List Char) :=
  match searchPatB matchA1At none text with
  | some _ => some "Multi".toList
  | none =>
  match searchPatB matchA2At none text with
  | some _ => some "Dual".toList
  | none =>
  match searchPatB (matchOptTailAt "Sub".toList "bed".toList) none text with
  | some _ => some "Sub".toList
  | none =>
  match searchPatB (matchOptTailAt "Dub".toList "bed".toList) none text with
  | some _ => some "Dub".toList
  | none =>
  match searchPat (matchBracketSubDubAt '[' ']') text with
  | some a => some a
  | none =>
  match searchPat (matchBracketSubDubAt '(' ')') text with
  | some a => some a
  | none =>
  match searchPatB matchA7At none text with
  | some _ => some "Dual".toList
  | none =>
  match searchPatB matchA8At none text with
  | some a => some a
  | none =>
  match searchPat matchA9At text with
  | some a => some a
  | none => none

/-- `startsWithCI pat s`: the literal `pat` matches case-insensitively at
the head of `s` (succeeds exactly when `stripLitCI` does). -/
def startsWithCI : List Char → List Char → Bool
  | [], _ => true
  | _ :: _, [] => false
  | p :: ps, c :: cs => ciEq p c && startsWithCI ps cs

/-- The literal `pat` occurs case-insensitively somewhere in `s`. -/
def occursCI (pat : List Char) : List Char → Bool
  | [] => startsWithCI pat []
  | c :: t => startsWithCI pat (c :: t) || occursCI pat t

/-- Embeds `re.sub(re.escape(placeholder), value, template,
flags=re.IGNORECASE)` for a nonempty literal placeholder: scan left to
right, replace each (non-overlapping) case-insensitive occurrence, copy
everything else.  The substituted values in this program never contain a
backslash, so `re.sub`'s template-escape processing of the replacement is
the identity. -/
def replaceCIFuel (pat val : List Char) : Nat → List Char → List Char
  | 0, s => s
  | _ + 1, [] => []
  | n + 1, c :: t =>
    if !pat.isEmpty && startsWithCI pat (c :: t) then
      val ++ replaceCIFuel pat val n ((c :: t).drop pat.length)
    else c :: replaceCIFuel pat val n t

/-- The replacement scan with enough fuel for the whole input (each step
consumes at least one character of the input, so `s.length` steps always
suffice). -/
def replaceCI (pat val : List Char) (s : List Char) : List Char :=
  replaceCIFuel pat val s.length s

/-- Python `x or default` for an optional string: `None` and the empty
string are falsy. -/
def pyOrStr (v : Option (List Char)) (d : List Char) : List Char :=
  match v with
  | some (c :: cs) => c :: cs
  | _ => d

/-- Embeds `os.path.splitext(file_name)[1]` for a bare filename (no path
separator): the suffix from the last dot on, except that a name whose only
dots are leading has no extension (CPython `genericpath._splitext`). -/
def splitextExt (name : List Char) : List Char :=
  match name.reverse.findIdx? (fun c => c = '.') with
  | none => []
  | some k =>
    let i := name.length - 1 - k
    if (name.take i).any (fun c => c ≠ '.') then name.drop i else []

/-- The three media kinds the handler distinguishes. -/
inductive MediaType where
  | document
  | video
  | audioM
  deriving DecidableEq

/-- Embeds line 285: `os.path.splitext(file_name)[1] or ('.mp4' if
media_type == 'video' else '.mp3')` (the empty extension is falsy). -/
def pyExtOr (e : List Char) (mt : MediaType) : List Char :=
  match e with
  | [] => if mt = MediaType.video then ".mp4".toList else ".mp3".toList
  | c :: t => c :: t

/-- Embeds the `replacements` dict literal (lines 264-273) in its
insertion order, with each value resolved as in the source (`season or
'XX'`, `episode or 'XX'`, `quality`, `audio_info or 'Unknown'`, then the
same four for the bare-word spellings). -/
def renameReplacements (season episode : Option (List Char))
    (quality : List Char) (audio : Option (List Char)) :
    List (List Char × List Char) :=
  [("{season}".toList, pyOrStr season "XX".toList),
   ("{episode}".toList, pyOrStr episode "XX".toList),
   ("{quality}".toList, quality),
   ("{audio}".toList, pyOrStr audio "Unknown".toList),
   ("Season".toList, pyOrStr season "XX".toList),
   ("Episode".toList, pyOrStr episode "XX".toList),
   ("QUALITY".toList, quality),
   ("AUDIO".toList, pyOrStr audio "Unknown".toList)]

/-- Embeds the placeholder-replacement loop (lines 276-282): for each
dict entry in order, `format_template = re.sub(re.escape(ph), value,
format_template, flags=re.IGNORECASE)`. -/
def applyReplacements (template : List Char) (season episode : Option (List Char))
    (quality : List Char) (audio : Option (List Char)) : List Char :=
  (renameReplacements season episode quality audio).foldl
    (fun t pv => replaceCI pv.1 pv.2 t) template

/-- Embeds line 286: `new_filename = f"{format_template}{ext}"` with
`ext` from line 285. -/
def new_filename (template : List Char) (season episode : Option (List Char))
    (quality : List Char) (audio : Option (List Char))
    (fileName : List Char) (mt : MediaType) : List Char :=
  applyReplacements template season episode quality audio ++
    pyExtOr (splitextExt fileName) mt

/-- Embeds line 256: `text_to_parse = message.caption if source_type ==
"caption" and message.caption else file_name` (an absent or empty caption
is falsy). -/
def sourceTextSelect (sourceType : List Char) (caption : Option (List Char))
    (fileName : List Char) : List Char :=
  if sourceType = "caption".toList then
    match caption with
    | some (c :: cs) => c :: cs
    | _ => fileName
  else fileName

/-- Embeds the pure Extracted/Rendered slice of `auto_rename_files`
(lines 254-288): select the source text, run the three classifiers, fill
the template, append the extension.  Raises (`.error`) exactly when
`extract_season_episode` does. -/
def auto_rename_new_filename (formatTemplate fileName : List Char)
    (mt : MediaType) (sourceType : List Char) (caption : Option (List Char)) :
    Except PyErr (List Char) :=
  let text := sourceTextSelect sourceType caption fileName
  match extract_season_episode text with
  | .error e => .error e
  | .ok (se, ep) =>
    .ok (new_filename formatTemplate se ep (extract_quality text)
          (extract_audio_info text) fileName mt)

/-- The four logical placeholder fields of the spec's placeholder table. -/
inductive PlaceholderField where
  | seasonField
  | episodeField
  | qualityField
  | audioField

/-- Modelled from the spec (§4.2): the resolved value of a logical field —
"season → extracted value or `XX`; episode → extracted value or `XX`;
quality → extracted value; audio → extracted value or `Unknown`". -/
def specResolve (season episode : Option (List Char)) (quality : List Char)
    (audio : Option (List Char)) : PlaceholderField → List Char
  | .seasonField =>
    match season with
    | some v => v
    | none => "XX".toList
  | .episodeField =>
    match episode with
    | some v => v
    | none => "XX".toList
  | .qualityField => quality
  | .audioField =>
    match audio with
    | some v => v
    | none => "Unknown".toList

/-- Modelled from the spec (§3 RenameTemplate): the 8 recognized
placeholder spellings (4 logical fields × 2 case styles) in the fixed
enumeration order of the placeholder table. -/
def placeholderTable : List (List Char × PlaceholderField) :=
  [("{season}".toList, .seasonField),
   ("{episode}".toList, .episodeField),
   ("{quality}".toList, .qualityField),
   ("{audio}".toList, .audioField),
   ("Season".toList, .seasonField),
   ("Episode".toList, .episodeField),
   ("QUALITY".toList, .qualityField),
   ("AUDIO".toList, .audioField)]

/-- Modelled from the spec (§4.2 render): for each of the 8 recognized
placeholder spellings, in the fixed enumeration order of the placeholder
table, perform a case-insensitive find-and-replace of the literal
placeholder text with the resolved value. -/
def render_spec (template : List Char) (season episode : Option (List Char))
    (quality : List Char) (audio : Option (List Char)) : List Char :=
  placeholderTable.foldl
    (fun t pv => replaceCI pv.1 (specResolve season episode quality audio pv.2) t)
    template

/-- Modelled from the spec (§4.2): the extension appended to the rendered
template — inferred from the source filename, or a media-type default
(`.mp4` for video, `.mp3` otherwise) if the source had none. -/
def ext_spec (fileName : List Char) (mt : MediaType) : List Char :=
  if splitextExt fileName = [] then
    (if mt = MediaType.video then ".mp4".toList else ".mp3".toList)
  else splitextExt fileName

/-- Association-list lookup for the `renaming_operations` dict, keyed by
file id. -/
def lookupKey : List (List Char × Int) → List Char → Option Int
  | [], _ => none
  | (k, v) :: t, key => if k = key then some v else lookupKey t key

/-- Association-list update, `renaming_operations[file_id] = now`. -/
def setKey : List (List Char × Int) → List Char → Int → List (List Char × Int)
  | [], key, v => [(key, v)]
  | (k, w) :: t, key, v =>
    if k = key then (k, v) :: t else (k, w) :: setKey t key v

/-- Association-list removal, `renaming_operations.pop(file_id)`. -/
def eraseKey : List (List Char × Int) → List Char → List (List Char × Int)
  | [], _ => []
  | (k, w) :: t, key => if k = key then t else (k, w) :: eraseKey t key

/-- Embeds Python's `timedelta.seconds` field for a time difference given
in microseconds: the normalized timedelta stores `days = delta fdiv 1 day`
and a remainder in `[0, 1 day)`, whose whole-second part is `.seconds`.
`Int.emod` by the positive constant agrees with Python's floor-mod, and
the remainder is nonnegative, so `/` is exact floor division. -/
def timedeltaSeconds (deltaUs : Int) : Int :=
  (deltaUs % 86400000000) / 1000000

/-- Embeds the duplicate guard (lines 242-247): if the file id has a
recorded time and `(now - recorded).seconds < 10`, return (skip) leaving
the dict unchanged; otherwise record `now` and proceed.  Times are
microseconds since the epoch (`datetime.now()` resolution). -/
def shouldProcess (ops : List (List Char × Int)) (fid : List Char) (now : Int) :
    Bool × List (List Char × Int) :=
  match lookupKey ops fid with
  | some t =>
    if timedeltaSeconds (now - t) < 10 then (false, ops)
    else (true, setKey ops fid now)
  | none => (true, setKey ops fid now)

/-- The timeout passed to `asyncio.wait_for` in `add_metadata`
(line 163). -/
def METADATA_TIMEOUT_SECONDS : Nat := 300

/-- Result of the metadata-tagging step: whether the subprocess was
killed, and the Python outcome (`RuntimeError` message or normal
return). -/
structure MetadataResult where
  killed : Bool
  outcome : Except (List Char) Unit

/-- Embeds `add_metadata` (lines 127-169): missing ffmpeg raises;
`asyncio.wait_for(..., timeout=300)` raising `TimeoutError` (the
subprocess ran longer than the bound) kills the process and raises; a
non-zero exit code raises an error carrying the decoded stderr; otherwise
the step returns normally.  `procSeconds` is how long the subprocess
would take, `returncode`/`stderrText` its result when it completes in
time. -/
def add_metadata (ffmpegFound : Bool) (procSeconds : Nat) (returncode : Int)
    (stderrText : List Char) : MetadataResult :=
  if ffmpegFound = false then
    { killed := false, outcome := .error "FFmpeg not found in PATH".toList }
  else if METADATA_TIMEOUT_SECONDS < procSeconds then
    { killed := true, outcome := .error "FFmpeg processing timed out".toList }
  else if returncode ≠ 0 then
    { killed := false, outcome := .error ("FFmpeg error: ".toList ++ stderrText) }
  else { killed := false, outcome := .ok () }

/-- The attribute names defined on `Database`
(src/helper/database.py lines 9-273), in source order. -/
def databaseMethodNames : List String :=
  ["new_user", "add_user", "is_user_exist", "total_users_count",
   "get_all_users", "delete_user", "set_thumbnail", "get_thumbnail",
   "set_caption", "get_caption", "set_format_template",
   "get_format_template", "set_file_source", "get_file_source",
   "get_metadata", "set_metadata", "get_title", "set_title",
   "get_author", "set_author", "get_artist", "set_artist", "get_audio",
   "set_audio", "get_subtitle", "set_subtitle", "get_video", "set_video"]

/-- The per-user state of the preference store that the source-selection
callback can touch. -/
structure DbState where
  file_source : List Char

/-- Python attribute dispatch on the `codeflixbots` Database object for a
single-string-argument preference update: accessing an attribute that the
class does not define raises `AttributeError`; `set_file_source` stores
its argument; any other defined method leaves `file_source` unchanged. -/
def dbInvoke (db : DbState) (method : String) (arg : List Char) :
    Except PyErr DbState :=
  if databaseMethodNames.contains method then
    (if method = "set_file_source" then .ok { file_source := arg } else .ok db)
  else .error .attributeError

/-- Uppercase an ASCII letter (Python `str.upper` on the ASCII source
types "filename"/"caption"). -/
def asciiUpper (c : Char) : Char :=
  if 'a' ≤ c && c ≤ 'z' then Char.ofNat (c.toNat - 32) else c

/-- What the source-selection callback leaves behind: the
`callback_query.answer` text, the edited message text if `edit_text` was
reached, and the store state. -/
structure CallbackOutcome where
  answerText : List Char
  editedText : Option (List Char)
  db : DbState

/-- Embeds `file_source_callback` (lines 183-195): it calls
`codeflixbots.update_file_source(user_id, source_type)` inside a
`try`; on any exception it logs and answers "Failed to update source
preference" (the success-path answer and `edit_text` are never reached if
the call raises). -/
def file_source_callback (db : DbState) (sourceType : List Char) :
    CallbackOutcome :=
  match dbInvoke db "update_file_source" sourceType with
  | .ok db2 =>
    { answerText := "Patterns will now be extracted from ".toList ++ sourceType,
      editedText := some ("✅ source set to: ".toList ++ sourceType.map asciiUpper),
      db := db2 }
  | .error _ =>
    { answerText := "Failed to update source preference".toList,
      editedText := none,
      db := db }

/-- The stages of one `auto_rename_files` invocation, named as in the
spec's §4.4 state machine. -/
inductive Stage where
  | PreferencesLoaded
  | ContentChecked
  | DuplicateChecked
  | SourceTextSelected
  | Extracted
  | Rendered
  | Downloaded
  | MetadataTagged
  | ThumbnailPrepared
  | Uploaded
  | Errored
  | CleanedUp
  deriving DecidableEq

/-- Position of each stage in the order the source code executes them
(`auto_rename_files`, lines 198-381): preferences (202-203), content
check (236), duplicate guard (244-247), source-text selection (256),
extraction (259-261), rendering (264-286), download (294-312), metadata
(315-321), thumbnail (331-336), upload (339-365), error handler
(371-376), finally-cleanup (377-381). -/
def stageIdx : Stage → Nat
  | .PreferencesLoaded => 0
  | .ContentChecked => 1
  | .DuplicateChecked => 2
  | .SourceTextSelected => 3
  | .Extracted => 4
  | .Rendered => 5
  | .Downloaded => 6
  | .MetadataTagged => 7
  | .ThumbnailPrepared => 8
  | .Uploaded => 9
  | .Errored => 10
  | .CleanedUp => 11

/-- The external outcomes one `auto_rename_files` invocation can observe:
database availability, stored template and source preference, the file's
identity/kind/name, caption, the content-safety verdict (`.error ()` =
checker raised), the shared pending-operations dict with the current
time, and success of the download / metadata / thumbnail-and-caption /
upload steps. -/
structure PipelineEnv where
  dbOk : Bool
  formatTemplate : Option (List Char)
  sourceTypePref : Option (List Char)
  fileInfoOk : Bool
  mediaType : MediaType
  fileName : List Char
  fileId : List Char
  caption : Option (List Char)
  nsfwResult : Except Unit Bool
  pending : List (List Char × Int)
  now : Int
  downloadOk : Bool
  metadataOk : Bool
  thumbPrepOk : Bool
  uploadOk : Bool

/-- Embeds the control flow of `auto_rename_files` (lines 198-381) as the
sequence of stages one invocation executes, in source order: DB fetch
(202-206, error → reply and return); template precondition (208-209,
absent → reply and return); file-info block (212-232, failure → reply and
return); NSFW content check (234-240, detected or raised → reply and
return); duplicate guard (242-247, duplicate → silent return — all of
these happen before the `try`, so no cleanup runs for them); then the
`try` body — source-text selection and extraction (254-261, an extraction
exception reaches the `except` and then the `finally`), rendering
(264-288, total), download (293-312), metadata (314-321), thumbnail and
caption preparation (323-336, a raised fetch aborts via the upload
`except`), upload (338-369) — with every abort inside the `try` passing
through the `except` handler (`Errored`) and the `finally` cleanup
(`CleanedUp`), and a successful upload ending with the `finally` cleanup
as well. -/
def auto_rename_files_trace (env : PipelineEnv) : List Stage :=
  if env.dbOk = false then [Stage.Errored]
  else
    Stage.PreferencesLoaded ::
    (match env.formatTemplate with
     | none => []
     | some _ =>
       if env.fileInfoOk = false then [Stage.Errored]
       else
         Stage.ContentChecked ::
         (match env.nsfwResult with
          | .error _ => [Stage.Errored]
          | .ok true => []
          | .ok false =>
            Stage.DuplicateChecked ::
            (if (shouldProcess env.pending env.fileId env.now).1 = false then []
             else
               Stage.SourceTextSelected ::
               (match extract_season_episode
                   (sourceTextSelect (pyOrStr env.sourceTypePref "filename".toList)
                     env.caption env.fileName) with
                | .error _ => [Stage.Errored, Stage.CleanedUp]
                | .ok _ =>
                  Stage.Extracted :: Stage.Rendered ::
                  (if env.downloadOk = false then [Stage.Errored, Stage.CleanedUp]
                   else
                     Stage.Downloaded ::
                     (if env.metadataOk = false then [Stage.Errored, Stage.CleanedUp]
                      else
                        Stage.MetadataTagged ::
                        (if env.thumbPrepOk = false then [Stage.Errored, Stage.CleanedUp]
                         else
                           Stage.ThumbnailPrepared ::
                           (if env.uploadOk = false then [Stage.Errored, Stage.CleanedUp]
                            else [Stage.Uploaded, Stage.CleanedUp]))))))))

/-- The local temporary paths one invocation can create: the download
target, the metadata output, the fetched (raw) thumbnail, and the
processed thumbnail written by `process_thumbnail`. -/
inductive TempPath where
  | downloadP
  | metadataP
  | rawThumbP
  | processedThumbP
  deriving DecidableEq

/-- Which steps of a run created their files: download target written,
metadata output written, a thumbnail fetched (raw file written), and
thumbnail processing succeeded (processed file written). -/
structure RunFlags where
  downloadCreated : Bool
  metadataCreated : Bool
  thumbFetched : Bool
  thumbProcessOk : Bool

/-- The local files still on disk when the `finally` block starts.  When
thumbnail processing fails, `process_thumbnail` (lines 111-125) deletes
the raw thumbnail itself and returns `None`; when it succeeds it writes
the processed file and returns its path, leaving the raw thumbnail on
disk. -/
def filesAtFinally (f : RunFlags) : List TempPath :=
  (if f.downloadCreated then [TempPath.downloadP] else []) ++
  (if f.metadataCreated then [TempPath.metadataP] else []) ++
  (if f.thumbFetched && f.thumbProcessOk then
    [TempPath.rawThumbP, TempPath.processedThumbP]
   else [])

/-- The value of the `thumb_path` variable at the `finally` block: the
processed path when processing succeeded, otherwise `None` (line 336
overwrites the raw path with `process_thumbnail`'s return value). -/
def finalThumbPath (f : RunFlags) : Option TempPath :=
  if f.thumbFetched && f.thumbProcessOk then some TempPath.processedThumbP
  else none

/-- The paths passed to `cleanup_files(download_path, metadata_path,
thumb_path)` on line 379; a `None` argument is skipped by the
`if path and os.path.exists(path)` test. -/
def cleanupArgs (f : RunFlags) : List TempPath :=
  [TempPath.downloadP, TempPath.metadataP] ++
    (match finalThumbPath f with
     | some p => [p]
     | none => [])

/-- Embeds `cleanup_files` (lines 99-109): remove each argument path in
turn; a nonexistent path is skipped; a removal that raises is logged and
the loop continues with the remaining paths (`removeFails p` = removing
`p` raises). -/
def cleanup_files (args : List TempPath) (existing : List TempPath)
    (removeFails : TempPath → Bool) : List TempPath :=
  args.foldl
    (fun ex p => if removeFails p then ex else ex.filter (fun q => q ≠ p))
    existing

/-- The files surviving the `finally` cleanup of one run. -/
def filesAfterCleanup (f : RunFlags) (removeFails : TempPath → Bool) :
    List TempPath :=
  cleanup_files (cleanupArgs f) (filesAtFinally f) removeFails

/-- Embeds lines 380-381: `if file_id in renaming_operations:
renaming_operations.pop(file_id)`. -/
def pendingAfterRun (ops : List (List Char × Int)) (fid : List Char) :
    List (List Char × Int) :=
  eraseKey ops fid

/-- A concrete environment in which every stage succeeds: database up, a
template configured, file info readable, content check negative, no
pending operation, and all later steps succeeding. -/
def envContentFirst : PipelineEnv :=
  { dbOk := true
    formatTemplate := some "{season}".toList
    sourceTypePref := none
    fileInfoOk := true
    mediaType := MediaType.video
    fileName := "S1E2.mkv".toList
    fileId := "f".toList
    caption := none
    nsfwResult := .ok false
    pending := []
    now := 0
    downloadOk := true
    metadataOk := true
    thumbPrepOk := true
    uploadOk := true }

example :
    extract_season_episode "Anime.S01E05.1080p.Dual.mkv".toList =
      .ok (some ['0', '1'], some ['0', '5']) := rfl

example : extract_season_episode "hello".toList = .error .attributeError := rfl

example : extract_season_episode "Episode 5".toList = .error .attributeError := rfl

example :
    extract_season_episode "Season 1 Episode 2".toList =
      .ok (some ['1'], some ['2']) := rfl

example :
    extract_season_episode "S12".toList = .ok (some ['1'], some ['2']) := rfl

example :
    extract_season_episode "S01E021".toList =
      .ok (some ['0', '1'], some ['0', '2', '1']) := rfl

example : extract_quality "Anime.S01E05.1080p.Dual.mkv".toList = "1080p".toList := rfl

example : extract_quality "no markers here".toList = "Unknown".toList := rfl

example : extract_quality "show 2160P x".toList = "2160P".toList := rfl

example : extract_quality "show 4K x".toList = "4k".toList := rfl

example : extract_quality "film.hdtv.mkv".toList = "hdtv".toList := rfl

example : extract_quality "a [720p] rip".toList = "720p".toList := rfl

example : extract_quality "x 12345p y".toList = "Unknown".toList := rfl

example : extract_audio_info "Anime.S01E05.1080p.Dual.mkv".toList = none := rfl

example : extract_audio_info "Show Dual Audio 720p".toList = some "Multi".toList := rfl

example : extract_audio_info "Show Dual Track".toList = some "Dual".toList := rfl

example : extract_audio_info "x [Sub] y".toList = some "Sub".toList := rfl

example : extract_audio_info "movie Dubbed x".toList = some "Dub".toList := rfl

example : extract_audio_info "Eng/Jap 1080p".toList = some "Dual".toList := rfl

example : extract_audio_info "x DTS HD y".toList = some ("DTS HD".toList) := rfl

example : extract_audio_info "tag [Unknown] z".toList = some "Unknown".toList := rfl

example : splitextExt "Anime.S01E05.1080p.Dual.mkv".toList = ".mkv".toList := rfl

example : splitextExt "video".toList = [] := rfl

example : splitextExt ".bashrc".toList = [] := rfl

example : splitextExt "archive.tar.gz".toList = ".gz".toList := rfl

example :
    auto_rename_new_filename "{season}{episode} {quality} {audio}".toList
      "Anime.S01E05.1080p.Dual.mkv".toList MediaType.video "filename".toList none =
    .ok "0105 1080p Unknown.mkv".toList := rfl

example :
    applyReplacements "{Season}x{Episode} - {quality}".toList
      (some "1".toList) (some "2".toList) "720p".toList none =
    "1x2 - 720p".toList := rfl

theorem replaceCIFuel_of_not_occurs (pat val : List Char) :
    ∀ (n : Nat) (s : List Char), occursCI pat s = false →
      replaceCIFuel pat val n s = s := by
  intro n
  induction n with
  | zero => intro s _; rfl
  | succ m ih =>
    intro s h
    cases s with
    | nil => rfl
    | cons c t =>
      have h2 : startsWithCI pat (c :: t) = false ∧ occursCI pat t = false := by
        have := h
        simp only [occursCI, Bool.or_eq_false_iff] at this
        exact this
      simp only [replaceCIFuel, h2.1, Bool.and_false, if_neg]
      rw [ih t h2.2]
      simp

theorem replaceCI_of_not_occurs (pat val s : List Char)
    (h : occursCI pat s = false) : replaceCI pat val s = s :=
  replaceCIFuel_of_not_occurs pat val s.length s h

theorem foldl_replaceCI_id (reps : List (List Char × List Char)) :
    ∀ t : List Char, (∀ pv ∈ reps, occursCI pv.1 t = false) →
      reps.foldl (fun acc pv => replaceCI pv.1 pv.2 acc) t = t := by
  induction reps with
  | nil => intro t _; rfl
  | cons pv rest ih =>
    intro t h
    have h1 : occursCI pv.1 t = false := h pv (List.mem_cons_self pv rest)
    simp only [List.foldl_cons, replaceCI_of_not_occurs pv.1 pv.2 t h1]
    exact ih t (fun q hq => h q (List.mem_cons_of_mem pv hq))

theorem lookupKey_eq_none_of_not_mem (ops : List (List Char × Int))
    (key : List Char) (h : key ∉ ops.map Prod.fst) :
    lookupKey ops key = none := by
  induction ops with
  | nil => rfl
  | cons kv t ih =>
    obtain ⟨k, v⟩ := kv
    simp only [List.map_cons, List.mem_cons, not_or] at h
    have hk : k ≠ key := fun e => h.1 e.symm
    simp only [lookupKey, if_neg hk]
    exact ih h.2

theorem lookupKey_eraseKey_self (ops : List (List Char × Int))
    (fid : List Char) (h : (ops.map Prod.fst).Nodup) :
    lookupKey (eraseKey ops fid) fid = none := by
  induction ops with
  | nil => rfl
  | cons kv t ih =>
    obtain ⟨k, v⟩ := kv
    simp only [List.map_cons, List.nodup_cons] at h
    by_cases hk : k = fid
    · simp only [eraseKey, if_pos hk]
      exact lookupKey_eq_none_of_not_mem t fid (hk ▸ h.1)
    · simp only [eraseKey, if_neg hk, lookupKey, if_neg hk]
      exact ih h.2

theorem cleanup_files_subset (args : List TempPath)
    (removeFails : TempPath → Bool) :
    ∀ existing : List TempPath,
      cleanup_files args existing removeFails ⊆ existing := by
  induction args with
  | nil => intro ex; exact fun _ hp => hp
  | cons p t ih =>
    intro ex
    simp only [cleanup_files, List.foldl_cons]
    intro q hq
    have step : (if removeFails p then ex else ex.filter (fun r => r ≠ p)) ⊆ ex := by
      split
      · exact fun _ hp => hp
      · exact fun r hr => (List.mem_filter.mp hr).1
    exact step (ih _ hq)

theorem cleanup_files_removes (args : List TempPath)
    (removeFails : TempPath → Bool) :
    ∀ (existing : List TempPath) (p : TempPath), p ∈ args →
      removeFails p = false →
      p ∉ cleanup_files args existing removeFails := by
  induction args with
  | nil => intro ex p hp _; exact absurd hp (List.not_mem_nil p)
  | cons q t ih =>
    intro ex p hp hfail
    simp only [cleanup_files, List.foldl_cons]
    rcases List.mem_cons.mp hp with h | h
    · subst h
      rw [if_neg (by simp [hfail])]
      intro hmem
      have : p ∈ ex.filter (fun r => r ≠ p) :=
        cleanup_files_subset t removeFails _ hmem
      simp [List.mem_filter] at this
    · exact fun hmem => ih _ p h hfail hmem

/-- Claim C1: the spec says the classifiers and the renderer are total
(never fail).  This is false of the code: `SEASON_EPISODE_PATTERNS` is a
`SyntaxError` (unbalanced parentheses, lines 32-36), and even under the
minimal repair `extract_season_episode` raises `AttributeError` on any
text not matched by patterns 1-5, because entries 6-7 of the list are
tuples, not compiled patterns.  This theorem evaluates the embedded code
at such a failing input. -/
theorem c1_extract_season_episode_raises :
    extract_season_episode "hello".toList = .error PyErr.attributeError := rfl

/-- Claim C2: the spec says a text whose first matching rule is rule 6
(`(E|EP|Episode)<digits>`) or rule 7 (bare standalone number) yields
season = none and episode = the digits.  In the code those rules are the
tuple entries of the broken `SEASON_EPISODE_PATTERNS` list: the loop
calls `.search` on a tuple and raises `AttributeError` instead, for a
rule-6 text ("Episode 5", "EP 12") as well as a rule-7 text
("The 12"). -/
theorem c2_rule6_rule7_raise :
    extract_season_episode "Episode 5".toList = .error PyErr.attributeError ∧
    extract_season_episode "EP 12".toList = .error PyErr.attributeError ∧
    extract_season_episode "The 12".toList = .error PyErr.attributeError :=
  ⟨rfl, rfl, rfl⟩

/-- Claim C3 counterexample: for `Anime.S01E05.1080p.Dual.mkv` with
template `{season}{episode} {quality} {audio}` the pipeline renders
`0105 1080p Unknown.mkv`, not the spec's `0105 1080p Dual.mkv`: no audio
pattern matches the bare word `Dual` (pattern 1 needs `Multi|Dual`
followed by `Audio`, pattern 2 needs `Audio|Track`). -/
theorem c3_rendered_name_not_dual :
    auto_rename_new_filename "{season}{episode} {quality} {audio}".toList
      "Anime.S01E05.1080p.Dual.mkv".toList MediaType.video
      "filename".toList none ≠
    .ok "0105 1080p Dual.mkv".toList := by
  intro h
  exact absurd (Except.ok.inj h) (by decide)

/-- Claim C3 (amended): the end-to-end run on
`Anime.S01E05.1080p.Dual.mkv` renders `0105 1080p Unknown.mkv` — season
`01` and episode `05` from rule 1, quality `1080p`, audio unmatched
(`extract_audio_info` returns none, so the `{audio}` placeholder gets the
fallback `Unknown`), and the literal `.mkv` extension preserved. -/
theorem c3_end_to_end :
    auto_rename_new_filename "{season}{episode} {quality} {audio}".toList
      "Anime.S01E05.1080p.Dual.mkv".toList MediaType.video
      "filename".toList none =
      .ok "0105 1080p Unknown.mkv".toList ∧
    extract_audio_info "Anime.S01E05.1080p.Dual.mkv".toList = none :=
  ⟨rfl, rfl⟩

/-- Claim C10: the source-selection callback calls
`codeflixbots.update_file_source`, but the `Database` class defines no
such attribute (only `set_file_source`), so the call raises
`AttributeError`, the handler answers with the failure message, the
status message is never edited, and the stored preference is unchanged —
for every store state and either source type. -/
theorem c10_update_file_source_always_fails (db : DbState)
    (sourceType : List Char) :
    dbInvoke db "update_file_source" sourceType = .error PyErr.attributeError ∧
    databaseMethodNames.contains "update_file_source" = false ∧
    databaseMethodNames.contains "set_file_source" = true ∧
    file_source_callback db sourceType =
      { answerText := "Failed to update source preference".toList,
        editedText := none,
        db := db } :=
  ⟨rfl, rfl, rfl, rfl⟩

/-- Claim C4 counterexample: in a fully successful invocation the trace
contains both checks, with the content-safety check strictly before the
duplicate check — the code runs the NSFW block (lines 234-240) before the
duplicate guard (lines 242-247), the reverse of the spec's
`DuplicateChecked → ContentChecked` order. -/
theorem c4_content_check_precedes_duplicate_check :
    Stage.ContentChecked ∈ auto_rename_files_trace envContentFirst ∧
    Stage.DuplicateChecked ∈ auto_rename_files_trace envContentFirst ∧
    (auto_rename_files_trace envContentFirst).indexOf Stage.ContentChecked <
      (auto_rename_files_trace envContentFirst).indexOf Stage.DuplicateChecked := by
  refine ⟨?_, ?_, ?_⟩ <;> · show _; decide

/-- Claim C4 (amended): every invocation executes its stages strictly in
the fixed source order — preferences, content check, duplicate check,
source-text selection, extraction, rendering, download, metadata,
thumbnail, upload, then error handling and cleanup — i.e. with the
content check *before* the duplicate check (the spec's state machine has
these two reversed). -/
theorem c4_stage_order (env : PipelineEnv) :
    List.Chain' (· < ·) ((auto_rename_files_trace env).map stageIdx) := by
  unfold auto_rename_files_trace
  repeat' split
  all_goals simp [stageIdx, List.chain'_cons, List.chain'_singleton]

/-- Claim C5 counterexample: with one pending operation recorded at time
0 µs, a second check 86405 seconds later (1 day + 5 s — far more than 10
seconds after the recorded submission) returns false and keeps the old
record, because the guard compares `timedelta.seconds`, the seconds field
of the normalized timedelta (here 5), not the total elapsed seconds. -/
theorem c5_day_wraparound_skips :
    (10 * 1000000 : Int) ≤ 86405000000 - 0 ∧
    shouldProcess [("f".toList, 0)] "f".toList 86405000000 =
      (false, [("f".toList, 0)]) := by
  refine ⟨by norm_num, ?_⟩
  rfl

/-- Claim C5 (amended): the guard compares the *seconds field* of the
Python timedelta `now - recorded` (days are discarded) against 10.  For a
recorded identity: a check strictly less than 10 real seconds after the
record returns false and leaves the record untouched; a check whose
timedelta-seconds field is at least 10 returns true and records the new
time (in particular any check 10 s to 24 h after the record); a check
whose seconds field is below 10 (including one or more whole days later)
returns false.  For an identity with no record — in particular after the
run's `finally` block removed it — the check returns true and records the
new time even within 10 seconds of the earlier submission. -/
theorem c5_duplicate_guard (ops : List (List Char × Int)) (fid : List Char)
    (now t : Int) :
    (lookupKey ops fid = some t →
      ((0 ≤ now - t → now - t < 10 * 1000000 →
          shouldProcess ops fid now = (false, ops)) ∧
       (10 ≤ timedeltaSeconds (now - t) →
          shouldProcess ops fid now = (true, setKey ops fid now)) ∧
       (timedeltaSeconds (now - t) < 10 →
          shouldProcess ops fid now = (false, ops)))) ∧
    (lookupKey ops fid = none →
      shouldProcess ops fid now = (true, setKey ops fid now)) ∧
    ((ops.map Prod.fst).Nodup →
      shouldProcess (pendingAfterRun ops fid) fid now =
        (true, setKey (pendingAfterRun ops fid) fid now)) := by
  refine ⟨fun h => ⟨?_, ?_, ?_⟩, fun h => ?_, fun h => ?_⟩
  · intro h0 hlt
    have hsec : timedeltaSeconds (now - t) < 10 := by
      unfold timedeltaSeconds
      omega
    simp [shouldProcess, h, hsec]
  · intro hge
    simp only [shouldProcess, h]
    rw [if_neg (by omega)]
  · intro hlt
    simp [shouldProcess, h, hlt]
  · simp [shouldProcess, h]
  · have hnone : lookupKey (pendingAfterRun ops fid) fid = none :=
      lookupKey_eraseKey_self ops fid h
    simp [shouldProcess, hnone]

/-- Witness for `c5_duplicate_guard` at concrete inputs: a second check
5 s after a record at 0 is refused and the record kept; a check exactly
10 s after is accepted and re-records; a check after the record was
removed is accepted. -/
theorem c5_duplicate_guard_witness :
    shouldProcess [("f".toList, 0)] "f".toList 5000000 =
      (false, [("f".toList, 0)]) ∧
    shouldProcess [("f".toList, 0)] "f".toList 10000000 =
      (true, setKey [("f".toList, 0)] "f".toList 10000000) ∧
    shouldProcess (pendingAfterRun [("f".toList, 0)] "f".toList)
        "f".toList 5000000 =
      (true, setKey (pendingAfterRun [("f".toList, 0)] "f".toList)
        "f".toList 5000000) :=
  ⟨((c5_duplicate_guard [("f".toList, 0)] "f".toList 5000000 0).1 rfl).1
      (by norm_num) (by norm_num),
   ((c5_duplicate_guard [("f".toList, 0)] "f".toList 10000000 0).1 rfl).2.1
      (by norm_num [timedeltaSeconds]),
   (c5_duplicate_guard [("f".toList, 0)] "f".toList 5000000 0).2.2
      (by simp)⟩

theorem pyExtOr_eq_ext_spec (fileName : List Char) (mt : MediaType) :
    pyExtOr (splitextExt fileName) mt = ext_spec fileName mt := by
  unfold pyExtOr ext_spec
  cases h : splitextExt fileName <;> simp [h]

/-- Claim C6: rendering replaces every case variant of each recognized
placeholder spelling with the resolved values (season/episode or `XX`,
quality, audio or `Unknown`) in the fixed table order, leaves other
template text unchanged, and appends the source filename's extension or
the `.mp4`/`.mp3` media-type default.  Formally: the code's rendering
equals the spec-modelled `render_spec`/`ext_spec` composition (given that
the extracted fields are never the empty string, which holds of every
classifier output since capture groups are nonempty digit runs), and a
template without any case-insensitive occurrence of the 8 placeholders
passes through unchanged. -/
theorem c6_render_spec_refinement (template : List Char)
    (season episode : Option (List Char)) (quality : List Char)
    (audio : Option (List Char)) (fileName : List Char) (mt : MediaType)
    (hs : season ≠ some []) (he : episode ≠ some []) (ha : audio ≠ some []) :
    new_filename template season episode quality audio fileName mt =
      render_spec template season episode quality audio ++
        ext_spec fileName mt ∧
    ((∀ pv ∈ renameReplacements season episode quality audio,
        occursCI pv.1 template = false) →
      applyReplacements template season episode quality audio = template) := by
  refine ⟨?_, fun hno => foldl_replaceCI_id _ template hno⟩
  rcases season with _ | ⟨_ | ⟨s1, s2⟩⟩ <;>
    rcases episode with _ | ⟨_ | ⟨e1, e2⟩⟩ <;>
    rcases audio with _ | ⟨_ | ⟨a1, a2⟩⟩ <;>
    first
      | exact absurd rfl hs
      | exact absurd rfl he
      | exact absurd rfl ha
      | exact congrArg₂ (· ++ ·) rfl (pyExtOr_eq_ext_spec fileName mt)

/-- Witness for `c6_render_spec_refinement`: the refinement at the
end-to-end template and extraction, and the pass-through on a
placeholder-free template. -/
theorem c6_render_witness :
    new_filename "{season}{episode} {quality} {audio}".toList
        (some "01".toList) (some "05".toList) "1080p".toList none
        "a.mkv".toList MediaType.video =
      render_spec "{season}{episode} {quality} {audio}".toList
        (some "01".toList) (some "05".toList) "1080p".toList none ++
        ext_spec "a.mkv".toList MediaType.video ∧
    applyReplacements "Movie_01".toList (some "01".toList)
        (some "05".toList) "1080p".toList none = "Movie_01".toList :=
  ⟨(c6_render_spec_refinement "{season}{episode} {quality} {audio}".toList
      (some "01".toList) (some "05".toList) "1080p".toList none
      "a.mkv".toList MediaType.video
      (by decide) (by decide) (by decide)).1,
   (c6_render_spec_refinement "Movie_01".toList
      (some "01".toList) (some "05".toList) "1080p".toList none
      "a.mkv".toList MediaType.video
      (by decide) (by decide) (by decide)).2 (by decide)⟩

/-- Claim C7 counterexample: `S01E021` contains the substring `S01E02`,
but `extract_season_episode` returns ("01","021") — the greedy `(\d+)` of
rule 1 captures the whole digit run — not ("01","02"), refuting the
for-every-text-containing-`S01E02` generalization. -/
theorem c7_containing_substring_fails :
    (searchPat (stripLit "S01E02".toList) "S01E021".toList).isSome = true ∧
    extract_season_episode "S01E021".toList =
      .ok (some "01".toList, some "021".toList) ∧
    (.ok (some "01".toList, some "021".toList) :
        Except PyErr (Option (List Char) × Option (List Char))) ≠
      .ok (some "01".toList, some "02".toList) := by
  refine ⟨by decide, rfl, fun h => absurd (Except.ok.inj h) (by decide)⟩

/-- Claim C7 (amended): the exact text `S01E02` yields ("01","02"); the
exact text `Season 1 Episode 2` in lower, mixed, or upper case yields
("1","2"); and whenever pattern 1 matches a text, its leftmost match
alone determines the result — no later pattern is consulted.  (The
claim's for-every-text-containing versions fail, e.g. on `S01E021`.) -/
theorem c7_first_match_determines (text : List Char) :
    extract_season_episode "S01E02".toList =
      .ok (some "01".toList, some "02".toList) ∧
    extract_season_episode "Season 1 Episode 2".toList =
      .ok (some "1".toList, some "2".toList) ∧
    extract_season_episode "season 1 episode 2".toList =
      .ok (some "1".toList, some "2".toList) ∧
    extract_season_episode "SEASON 1 EPISODE 2".toList =
      .ok (some "1".toList, some "2".toList) ∧
    (∀ s e, searchPat matchP1At text = some (s, e) →
      extract_season_episode text = .ok (some s, some e)) := by
  refine ⟨rfl, rfl, rfl, rfl, fun s e h => ?_⟩
  unfold extract_season_episode
  rw [h]

/-- Witness for `c7_first_match_determines`: pattern 1's leftmost match
on `S01E02 S5` determines the result. -/
theorem c7_first_match_witness :
    extract_season_episode "S01E02 S5".toList =
      .ok (some "01".toList, some "02".toList) :=
  (c7_first_match_determines "S01E02 S5".toList).2.2.2.2
    "01".toList "02".toList rfl

/-- Claim C8 counterexample: in a run that downloaded, tagged, fetched a
thumbnail and processed it successfully, with no removal failures, the
raw (pre-processing) thumbnail file survives the `finally` cleanup — the
run created it, but `cleanup_files` is only passed the processed path. -/
theorem c8_raw_thumbnail_survives :
    filesAfterCleanup
        { downloadCreated := true, metadataCreated := true,
          thumbFetched := true, thumbProcessOk := true }
        (fun _ => false) = [TempPath.rawThumbP] ∧
    TempPath.rawThumbP ∈ filesAtFinally
        { downloadCreated := true, metadataCreated := true,
          thumbFetched := true, thumbProcessOk := true } := by
  exact ⟨rfl, by decide⟩

/-- Claim C8 (amended): every exit path that reached the `try` body (the
runs that passed the duplicate guard and the earlier checks) ends in the
`finally` cleanup; each path passed to `cleanup_files` whose removal does
not itself fail is deleted regardless of failures on the other paths;
with no removal failures everything passed to `cleanup_files` is deleted
— but the raw thumbnail file is not among the arguments and survives
whenever thumbnail processing succeeded; and the file id's
pending-operation entry is always removed. -/
theorem c8_cleanup_discipline (f : RunFlags) (removeFails : TempPath → Bool)
    (ops : List (List Char × Int)) (fid : List Char) (env : PipelineEnv) :
    (Stage.SourceTextSelected ∈ auto_rename_files_trace env →
      (auto_rename_files_trace env).getLast? = some Stage.CleanedUp) ∧
    (∀ p, p ∈ cleanupArgs f → removeFails p = false →
      p ∉ filesAfterCleanup f removeFails) ∧
    ((∀ p, removeFails p = false) →
      filesAfterCleanup f removeFails =
        if f.thumbFetched && f.thumbProcessOk then [TempPath.rawThumbP]
        else []) ∧
    ((ops.map Prod.fst).Nodup →
      lookupKey (pendingAfterRun ops fid) fid = none) := by
  refine ⟨?_, ?_, ?_, fun hnd => lookupKey_eraseKey_self ops fid hnd⟩
  · unfold auto_rename_files_trace
    repeat' split
    all_goals decide
  · intro p hp hf
    exact cleanup_files_removes (cleanupArgs f) removeFails
      (filesAtFinally f) p hp hf
  · intro hnofail
    obtain ⟨a, b, c, d⟩ := f
    cases a <;> cases b <;> cases c <;> cases d <;>
      simp [filesAfterCleanup, cleanup_files, cleanupArgs, filesAtFinally,
        finalThumbPath, hnofail]

/-- Witness for `c8_cleanup_discipline`: a successful run's trace ends in
cleanup; the download file is removed even though removing the metadata
file fails; a run without a fetched thumbnail leaves nothing behind when
no removal fails; and the pending entry for a recorded file id is gone. -/
theorem c8_cleanup_witness :
    (auto_rename_files_trace envContentFirst).getLast? =
      some Stage.CleanedUp ∧
    TempPath.downloadP ∉ filesAfterCleanup
        { downloadCreated := true, metadataCreated := true,
          thumbFetched := true, thumbProcessOk := true }
        (fun p => p == TempPath.metadataP) ∧
    filesAfterCleanup
        { downloadCreated := true, metadataCreated := true,
          thumbFetched := false, thumbProcessOk := false }
        (fun _ => false) = [] ∧
    lookupKey (pendingAfterRun [("f".toList, 0)] "f".toList) "f".toList =
      none :=
  ⟨(c8_cleanup_discipline
      { downloadCreated := true, metadataCreated := true,
        thumbFetched := true, thumbProcessOk := true }
      (fun _ => false) [] [] envContentFirst).1 (by decide),
   (c8_cleanup_discipline
      { downloadCreated := true, metadataCreated := true,
        thumbFetched := true, thumbProcessOk := true }
      (fun p => p == TempPath.metadataP) [] [] envContentFirst).2.1
      TempPath.downloadP (by decide) (by decide),
   ((c8_cleanup_discipline
      { downloadCreated := true, metadataCreated := true,
        thumbFetched := false, thumbProcessOk := false }
      (fun _ => false) [] [] envContentFirst).2.2.1 (fun _ => rfl)).trans
      (by decide),
   (c8_cleanup_discipline
      { downloadCreated := true, metadataCreated := true,
        thumbFetched := true, thumbProcessOk := true }
      (fun _ => false) [("f".toList, 0)] "f".toList envContentFirst).2.2.2
      (by decide)⟩

/-- Claim C9: the metadata step runs the external process under a
300-second bound — exceeding the bound kills the subprocess and raises;
a non-zero exit in time raises an error whose message carries the
subprocess's stderr; otherwise the step completes normally. -/
theorem c9_metadata_timeout_and_errors (d : Nat) (rc : Int)
    (se : List Char) :
    (300 < d → add_metadata true d rc se =
      { killed := true,
        outcome := .error "FFmpeg processing timed out".toList }) ∧
    (d ≤ 300 → rc ≠ 0 → add_metadata true d rc se =
      { killed := false,
        outcome := .error ("FFmpeg error: ".toList ++ se) }) ∧
    (d ≤ 300 → rc = 0 → add_metadata true d rc se =
      { killed := false, outcome := .ok () }) := by
  refine ⟨fun h => ?_, fun h hrc => ?_, fun h hrc => ?_⟩
  · simp [add_metadata, METADATA_TIMEOUT_SECONDS, h]
  · have hnt : ¬ (METADATA_TIMEOUT_SECONDS < d) := by
      simp [METADATA_TIMEOUT_SECONDS]; omega
    simp [add_metadata, hnt, hrc]
  · have hnt : ¬ (METADATA_TIMEOUT_SECONDS < d) := by
      simp [METADATA_TIMEOUT_SECONDS]; omega
    simp [add_metadata, hnt, hrc]

/-- Witness for `c9_metadata_timeout_and_errors`: a 301-second process is
killed with the timeout error; an in-time non-zero exit carries its
stderr; an in-time zero exit completes normally. -/
theorem c9_metadata_witness :
    add_metadata true 301 0 [] =
      { killed := true,
        outcome := .error "FFmpeg processing timed out".toList } ∧
    add_metadata true 5 1 "boom".toList =
      { killed := false,
        outcome := .error ("FFmpeg error: ".toList ++ "boom".toList) } ∧
    add_metadata true 5 0 [] = { killed := false, outcome := .ok () } :=
  ⟨(c9_metadata_timeout_and_errors 301 0 []).1 (by norm_num),
   (c9_metadata_timeout_and_errors 5 1 "boom".toList).2.1 (by norm_num)
     (by norm_num),
   (c9_metadata_timeout_and_errors 5 0 []).2.2 (by norm_num) rfl⟩
